import Mathlib

set_option maxRecDepth 40000

/-!
Verification of the QuantumKat chat pipeline (cogs/Chat.py and
cogs/utils/utils.py) against its specification.

Python strings are modelled as Lean `String` (`List Char` where character
arithmetic is needed; Python `len` counts code points, as `List.length` on
`String.data` does).  Effectful calls (HTTP requests, the tiktoken encoder,
`mimetypes.guess_extension`, the OpenAI completion client, the file system)
are passed in explicitly through an `Env` record, and a run of the command
handler is summarised in an `Outcome` record: the completion requests issued,
the rows inserted into the chat table, the replies sent to the caller and the
exception escaping the handler, if any.  A Python exception is a `PyExc`
value; a function that can raise returns `Except PyExc _`.
-/

/-- One stored conversation turn: a row of the `chat` table
(`user_message`, `assistant_message`); rows are kept in insertion (id)
order. -/
structure Turn where
  user_message : String
  assistant_message : String
deriving DecidableEq

/-- One part of a multi-modal message content: the text of the message or one
base64-encoded image frame (`{"image": x}` in Chat.py line 213). -/
inductive PyContentPart where
  | txt (s : String)
  | image (b64 : String)
deriving DecidableEq

/-- The `content` field of a request message: a plain string, or the composite
list built for messages with image attachments (Chat.py lines 209-217). -/
inductive PyContent where
  | text (s : String)
  | parts (ps : List PyContentPart)
deriving DecidableEq

/-- A role-tagged message of the request payload. -/
structure PyMsg where
  role : String
  content : PyContent
deriving DecidableEq

/-- The row handed to `crud.add_chat` on a successful completion
(Chat.py lines 250-259).  `user_id`/`server_id` are carried through from the
invocation context. -/
structure ChatRow where
  user_id : Nat
  server_id : Nat
  user_message : String
  assistant_message : String
  shared_chat : Bool
deriving DecidableEq

/-- Python exceptions that the chat pipeline can raise.
`unboundLocal` is the `UnboundLocalError` of reading a never-assigned local;
`valueError`, `unsupportedFormat` (`UnsupportedImageFormatError`) and
`fileSizeLimit` (the size-limit error, `FileSizeLimitError` in utils.py,
imported as `FileSizeError` by Chat.py) carry `str(e)`. -/
inductive PyExc where
  | unsupportedFormat (msg : String)
  | fileSizeLimit (msg : String)
  | valueError (msg : String)
  | unboundLocal
deriving DecidableEq

/-- The response headers URLHandler keeps: the raw `Content-Type` value and
the parsed `Content-Length`, each absent when the server did not send the
header. -/
structure Header where
  contentType : Option String
  contentLength : Option Nat
deriving DecidableEq

/-- The arguments of the body-download call at the end of
`convert_to_base64` (utils.py lines 561-563).  Reaching this value means the
validation checks all passed and the body download is initiated.  (As
written, the source passes the keyword `limit=`, which is not the name of
`download_file`'s parameter `amount_or_limit`; none of the verified
properties depend on what happens past this call site.) -/
structure DownloadCall where
  url : String
  amount_or_limit : Nat
  unit : String
deriving DecidableEq

/-- The first argument of `content_size_is_over_limit`: a file path, a byte
stream, an int, or any other Python value (in the pipeline: the `None` that
`header_file_size` yields when `Content-Length` is absent), which matches
none of the `isinstance` arms. -/
inductive SizeArg where
  | str (file_path : String)
  | bytes (stream : List Nat)
  | int (n : Nat)
  | pyNone
deriving DecidableEq

/-- The external collaborators of one chat invocation. -/
structure Env where
  /-- `tiktoken` encoding of a string (`encoding.encode`). -/
  enc : String → List Nat
  /-- `requests.head` on a URL: `some` headers on success, `none` when the
  request raises / a bad status is returned. -/
  head_req : String → Option Header
  /-- the streamed `requests.get` fallback, likewise. -/
  get_req : String → Option Header
  /-- `mimetypes.guess_extension` (the stdlib table). -/
  guess_extension : Option String → Option String
  /-- `get_file_size` (file-system stat), for the file-path arm of
  `content_size_is_over_limit`. -/
  file_size_on_disk : String → Nat
  /-- body download and per-frame base64 encoding for a URL that passed
  validation (spec steps 6-8), as the chat pipeline's resolver performs it. -/
  download_frames : String → Except PyExc (List String)
  /-- the completion client: a text completion, or an `OpenAIError` whose
  `str` is carried in the error. -/
  completion : List PyMsg → Except String String
  /-- `self.system_message.format(user=..., version=...)` (Chat.py 227-232). -/
  system_formatted : String

/-- What one run of `initiateChat` did: completion requests issued, rows
inserted into the chat table, replies sent, and the exception that escaped
the handler, if any. -/
structure Outcome where
  apiRequests : List (List PyMsg) := []
  dbAdds : List ChatRow := []
  replies : List String := []
  raised : Option PyExc := none
deriving DecidableEq

/-! ## utils.py constants -/

/-- `SUPPORTED_IMAGE_FORMATS` (utils.py lines 25-31). -/
def SUPPORTED_IMAGE_FORMATS : List String := [".png", ".jpeg", ".jpg", ".webp", ".gif"]

/-- The keys of `UNITS` (utils.py line 33), in insertion order. -/
def UNITS_keys : List String := ["B", "KB", "MB", "GB"]

/-- `UNITS` (utils.py line 33) as a lookup. -/
def UNITS : String → Option Nat := fun u =>
  if u = "B" then some 1
  else if u = "KB" then some 1024
  else if u = "MB" then some (1024 * 1024)
  else if u = "GB" then some (1024 * 1024 * 1024)
  else none

/-- `OPENAI_IMAGE_SIZE_LIMIT_MB` (utils.py line 38). -/
def OPENAI_IMAGE_SIZE_LIMIT_MB : Nat := 20

/-! ## utils.py functions -/

/-- `strip_embed_disabler` (utils.py lines 476-486): removes every `<` and
`>` from the URL (`str.replace` removes all occurrences). -/
def strip_embed_disabler (url : String) : String :=
  String.mk (url.data.filter (fun c => c ≠ '<' ∧ c ≠ '>'))

/-- One attempt of the regex `https?://[^\s]+` at the head of the text:
`some (match, rest)` when the pattern matches here.  (`https?` needs no
backtracking: when the optional `s` is present, consuming it is the only way
`://` can follow.) -/
def matchUrlAt : List Char → Option (List Char × List Char)
  | 'h' :: 't' :: 't' :: 'p' :: rest =>
    let (scheme, rest2) : List Char × List Char :=
      match rest with
      | 's' :: r => (['h', 't', 't', 'p', 's'], r)
      | r => (['h', 't', 't', 'p'], r)
    match rest2 with
    | ':' :: '/' :: '/' :: rest3 =>
      let body := rest3.takeWhile (fun c => ¬ c.isWhitespace)
      if body.isEmpty then none
      else some (scheme ++ [':', '/', '/'] ++ body, rest3.drop body.length)
    | _ => none
  | _ => none

/-- `re.findall` scan: left to right, non-overlapping, resuming after each
match.  Each step consumes at least one character, so fuel equal to the
length of the text suffices. -/
def findUrlsAux : Nat → List Char → List (List Char)
  | 0, _ => []
  | _, [] => []
  | Nat.succ fuel, c :: rest =>
    match matchUrlAt (c :: rest) with
    | some (m, r) => m :: findUrlsAux fuel r
    | none => findUrlsAux fuel rest

/-- `get_urls_in_message` (utils.py lines 725-735):
`findall(r"https?://[^\s]+", message)`. -/
def get_urls_in_message (message : String) : List String :=
  (findUrlsAux message.data.length message.data).map String.mk

/-- `calculate_tokens` (utils.py lines 738-753): the summed token counts of
the user and system messages under the model encoding. -/
def calculate_tokens (enc : String → List Nat) (user_message system_message : String) : Nat :=
  let messages := [user_message, system_message]
  messages.foldl (fun tokens message => tokens + (enc message).length) 0

/-- Python `message.split(". ")` on a character list: split on the leftmost
occurrence of the two-character separator and continue after it; a text with
no separator yields itself as the single piece. -/
def pySplitDotSpace : List Char → List (List Char)
  | '.' :: ' ' :: rest => [] :: pySplitDotSpace rest
  | c :: rest =>
    match pySplitDotSpace rest with
    | [] => [[c]]
    | s :: ss => (c :: s) :: ss
  | [] => [[]]

/-- The loop body of `split_message_by_sentence` (utils.py lines 812-819),
on the state (accumulated messages, current message, tracked length). -/
def smbs_step (st : List (List Char) × List Char × Nat) (sentence : List Char) :
    List (List Char) × List Char × Nat :=
  let (messages, current_message, current_length) := st
  let (messages, current_message, current_length) :=
    if current_length + sentence.length + 1 > 2000 then
      (messages ++ [current_message], ([] : List Char), 0)
    else (messages, current_message, current_length)
  (messages, current_message ++ sentence ++ ['.', ' '], current_length + sentence.length + 1)

/-- `split_message_by_sentence` (utils.py lines 797-824). -/
def split_message_by_sentence (message : List Char) : List (List Char) :=
  let sentences := pySplitDotSpace message
  let folded := sentences.foldl smbs_step ([], [], 0)
  let messages := folded.1
  let current_message := folded.2.1
  if current_message ≠ [] then messages ++ [current_message] else messages

/-- Python `str(v)` of an optional string, as an f-string renders it:
`None` prints as `"None"`. -/
def pyShowOpt : Option String → String
  | some s => s
  | none => "None"

/-- `f"Invalid unit. Choose from {', '.join(UNITS.keys())}."`
(utils.py line 659). -/
def invalid_unit_message : String :=
  let keys := String.intercalate ", " UNITS_keys
  s!"Invalid unit. Choose from {keys}."

/-- Python `str.upper()`, per-character (the unit strings are ASCII). -/
def pyUpper (s : String) : String :=
  String.mk (s.data.map Char.toUpper)

/-- `content_size_is_over_limit` (utils.py lines 642-669).  The three
`isinstance` arms each assign `file_size`; a first argument matching none of
them leaves `file_size` unassigned, and the final `return` then raises
`UnboundLocalError`. -/
def content_size_is_over_limit (fs : String → Nat) (file_path_or_stream_or_int : SizeArg)
    (limit : Nat) (unit : String) : Except PyExc Bool :=
  let unit := pyUpper unit
  match UNITS unit with
  | none => .error (.valueError invalid_unit_message)
  | some u =>
    let limit_in_bytes := limit * u
    match file_path_or_stream_or_int with
    | .str file_path => .ok (decide (fs file_path > limit_in_bytes))
    | .bytes stream => .ok (decide (stream.length > limit_in_bytes))
    | .int n => .ok (decide (n > limit_in_bytes))
    | .pyNone => .error .unboundLocal

/-! ## URLHandler (utils.py lines 156-332) -/

/-- The message of the `ValueError` raised when a URL cannot be accessed
(utils.py line 229). -/
def could_not_access_message (url : String) : String :=
  s!"Could not access the file at {url}."

/-- The URL branch of `URLHandler.__init__` (utils.py lines 215-230): a HEAD
request, falling back to a streamed GET; when both fail,
`ValueError(f"Could not access the file at {url}.")`. -/
def URLHandler_init (env : Env) (url : String) : Except PyExc Header :=
  match env.head_req url with
  | some headers => .ok headers
  | none =>
    match env.get_req url with
    | some headers => .ok headers
    | none => .error (.valueError (could_not_access_message url))

/-- `URLHandler.header_file_size` (utils.py lines 234-247): the parsed
`Content-Length`, or `None` when the header is absent. -/
def header_file_size (header : Header) : Option Nat :=
  header.contentLength

/-- `URLHandler.header_mime_type` (utils.py lines 249-262): the part of
`Content-Type` before the first `;`, or `None` when the header is absent. -/
def header_mime_type (header : Header) : Option String :=
  header.contentType.map (fun ct => String.mk (ct.data.takeWhile (fun c => c ≠ ';')))

/-- `get_mime_type` (utils.py lines 827-837): delegates to
`mimetypes.guess_extension`. -/
def get_mime_type (env : Env) (mime_type : Option String) : Option String :=
  env.guess_extension mime_type

/-- Python `file_type not in SUPPORTED_IMAGE_FORMATS` where `file_type` may
be `None` (membership of `None` in a list of strings is false). -/
def optNotInFormats (file_type : Option String) : Bool :=
  match file_type with
  | some ft => ! SUPPORTED_IMAGE_FORMATS.contains ft
  | none => true

/-- The unsupported-format message of `convert_to_base64`
(utils.py lines 554-556). -/
def unsupported_format_message (url : String) (file_type : Option String) : String :=
  let ft := pyShowOpt file_type
  let fmts := String.intercalate ", " SUPPORTED_IMAGE_FORMATS
  s!"The image from the URL {url} has {ft} format, but only {fmts} is supported."

/-- The size-limit message of `convert_to_base64` (utils.py lines 558-560). -/
def file_size_limit_message (url : String) : String :=
  let lim := OPENAI_IMAGE_SIZE_LIMIT_MB
  s!"The image from the URL {url} exceeds the size limit of {lim} MB."

/-- The `SizeArg` that `header_file_size`'s result is passed as: an int when
the header was present, Python `None` otherwise. -/
def sizeArgOfOpt : Option Nat → SizeArg
  | some n => .int n
  | none => .pyNone

/-- The URL overload of `convert_to_base64` (utils.py lines 549-563): probe
the headers, reject unsupported declared types, reject declared sizes over
the 20 MB ceiling, then initiate the body download.  `.ok` carries the
arguments of the `download_file` call; everything past that call (the body
transfer and the PIL/base64 frame encoding of lines 565-622) is outside the
verified properties. -/
def convert_to_base64 (env : Env) (url : String) : Except PyExc DownloadCall :=
  match URLHandler_init env url with
  | .error e => .error e
  | .ok file_info =>
    let file_size := header_file_size file_info
    let file_type := get_mime_type env (header_mime_type file_info)
    if optNotInFormats file_type then
      .error (.unsupportedFormat (unsupported_format_message url file_type))
    else
      match content_size_is_over_limit env.file_size_on_disk (sizeArgOfOpt file_size)
          OPENAI_IMAGE_SIZE_LIMIT_MB "MB" with
      | .error e => .error e
      | .ok true => .error (.fileSizeLimit (file_size_limit_message url))
      | .ok false => .ok ⟨url, OPENAI_IMAGE_SIZE_LIMIT_MB, "MB"⟩

/-- Modelled from the spec: `get_image_as_base64` is imported by Chat.py but
absent from the sources (utils.py carries the same pipeline under the name
`convert_to_base64`, whose docstring still names `get_image_as_base64`'s
error `FileSizeError`).  Per spec section 4.3 it probes the headers (step 3,
via the source `URLHandler`, hence `ValueError` naming the URL when both
attempts fail), rejects undeclared/unsupported types (step 4) and declared
sizes over 20 MB (step 5, via the source `content_size_is_over_limit`), then
downloads and base64-encodes the frames (steps 6-8, environment-provided),
returning the ordered frame list. -/
def get_image_as_base64 (env : Env) (url : String) : Except PyExc (List String) :=
  match URLHandler_init env url with
  | .error e => .error e
  | .ok file_info =>
    let file_size := header_file_size file_info
    let file_type := get_mime_type env (header_mime_type file_info)
    if optNotInFormats file_type then
      .error (.unsupportedFormat (unsupported_format_message url file_type))
    else
      match content_size_is_over_limit env.file_size_on_disk (sizeArgOfOpt file_size)
          OPENAI_IMAGE_SIZE_LIMIT_MB "MB" with
      | .error e => .error e
      | .ok true => .error (.fileSizeLimit (file_size_limit_message url))
      | .ok false => env.download_frames url

/-! ## History store (Chat.py lines 112-142, sql.crud modelled) -/

/-- Modelled from the spec: `sql.crud.get_chats_for_user` is not among the
sources; per the spec (section 3 invariants, section 4.2) it returns the `n`
most recent stored turns of the key, most-recent-first (descending insertion
id), as `(user_message, assistant_message)` rows. -/
def get_chats_for_user (stored : List Turn) (n : Nat) : List Turn :=
  stored.reverse.take n

/-- Modelled from the spec: `sql.crud.get_shared_chats_for_server`, likewise
for a shared-chat key. -/
def get_shared_chats_for_server (stored : List Turn) (n : Nat) : List Turn :=
  stored.reverse.take n

/-- `Chat.database_read` (Chat.py lines 112-142): fetch the 10 most recent
turns for the key, append per row the assistant line then the user line, and
reverse the flat list.  `stored` is the chat table restricted to the resolved
conversation key, in insertion order. -/
def database_read (shared_chat : Bool) (stored : List Turn) : List PyMsg :=
  let result :=
    if shared_chat then get_shared_chats_for_server stored 10
    else get_chats_for_user stored 10
  let messages := result.foldl
    (fun messages t => messages ++
      [⟨"assistant", .text t.assistant_message⟩, ⟨"user", .text t.user_message⟩]) []
  messages.reverse

/-! ## Chat.initiateChat (Chat.py lines 166-303) -/

/-- `self.system_message` (Chat.py lines 43-53): the unformatted template,
against which the token budget is checked. -/
def system_message : String :=
  "You are QuantumKat, a cybernetic cat with void-like black fur.
You still retain the bodily parts and functions of a normal cat.
You have the intelligence of a human and can talk.
You can teleport to any point in time or location between dimensions, realities, universes and timelines.
Your past is unknown and you have no knowledge of how you came to existence, but you know you have to use these powers to monitor and keep them all safe,
however, you are still young and don\x27t quite know how to do it correctly, as well as being clumsy, often resulting in you appearing in an incorrect location or doing the wrong thing.
You are quite sarcastic. You are allowed to have opinions on things.
Many people interact with you, and it\x27s over the chat program called Discord, so you should never exceed 1950 characters in a response.
You are currently talking to {user}.
You are currently running on version {version}.
Avoid repeating yourself."

/-- The over-budget reply (Chat.py lines 290-294). -/
def too_long_reply (tokens : Nat) : String :=
  s!"Message is too long! Your message is {tokens} tokens long, but the maximum is 1024 tokens."

/-- The upstream-failure reply (Chat.py lines 284-289). -/
def openai_error_reply (e : String) : String :=
  s!"OpenAI returned an error with the error {e}. Please try again later."

/-- The empty-message reply (Chat.py lines 295-299). -/
def empty_message_reply : String :=
  "Message cannot be empty! I may be smart, but I\x27m not a mind reader!"

/-- The missing-key reply (Chat.py lines 300-303). -/
def no_api_key_reply : String :=
  "OpenAI API key not found. Chat commands will not work."

/-- The attachment loop of `initiateChat` (Chat.py lines 194-207): strip the
embed disablers from each URL in turn and extend the accumulated frame list;
the first raised error ends the loop. -/
def resolve_images (env : Env) : List String → Except PyExc (List String)
  | [] => .ok []
  | url :: rest =>
    match get_image_as_base64 env (strip_embed_disabler url) with
    | .error e => .error e
    | .ok imgs =>
      match resolve_images env rest with
      | .error e => .error e
      | .ok more => .ok (imgs ++ more)

/-- `Chat.initiateChat` (Chat.py lines 166-303).  `user_message` is the
command argument (checked for emptiness and against the token budget);
`processed_message` is the message re-derived from the invocation context
(prefix stripped, mentions replaced, Chat.py lines 184-191), from which URLs
are extracted and which is persisted and sent upstream.  `stored` is the chat
table restricted to the resolved conversation key, in insertion order.  The
`except` clause of the attachment loop catches only the unsupported-format
and file-size errors; any other exception escapes the handler (`raised`),
and the global `on_command_error` listener (cogs/Tunnel.py) only logs it. -/
def initiateChat (env : Env) (FOUND_API_KEY : Bool) (user_message processed_message : String)
    (user_id server_id : Nat) (shared_chat : Bool) (stored : List Turn) : Outcome :=
  if FOUND_API_KEY = true then
    if user_message ≠ "" then
      let tokens := calculate_tokens env.enc user_message system_message
      if ¬ (tokens > 1024) then
        let urls := get_urls_in_message processed_message
        let user_content : Except PyExc PyContent :=
          if urls ≠ [] then
            match resolve_images env urls with
            | .error e => .error e
            | .ok base64_images =>
              .ok (.parts (.txt processed_message :: base64_images.map .image))
          else
            .ok (.text processed_message)
        match user_content with
        | .error (.unsupportedFormat m) => { replies := [m] }
        | .error (.fileSizeLimit m) => { replies := [m] }
        | .error e => { raised := some e }
        | .ok content =>
          let user_role : PyMsg := ⟨"user", content⟩
          let conversation_history := database_read shared_chat stored
          let messages :=
            ⟨"system", .text env.system_formatted⟩ :: conversation_history ++ [user_role]
          match env.completion messages with
          | .ok chat_response =>
            { apiRequests := [messages],
              dbAdds := [⟨user_id, server_id, processed_message, chat_response, shared_chat⟩],
              replies :=
                if chat_response.length > 2000 then
                  (split_message_by_sentence chat_response.data).map String.mk
                else [chat_response] }
          | .error e =>
            { apiRequests := [messages], replies := [openai_error_reply e] }
      else
        { replies := [too_long_reply tokens] }
    else
      { replies := [empty_message_reply] }
  else
    { replies := [no_api_key_reply] }

/-! ## Statement helpers and concrete environments -/

/-- One historical turn as it appears in the assembled payload, in
chronological order (the user line, then the assistant line). -/
def pair_messages (t : Turn) : List PyMsg :=
  [⟨"user", .text t.user_message⟩, ⟨"assistant", .text t.assistant_message⟩]

/-- A header declaring a small png. -/
def hdrPng : Header := { contentType := some "image/png", contentLength := some 100 }

/-- A header declaring a pdf (scenario C). -/
def hdrPdf : Header := { contentType := some "application/pdf", contentLength := some 100 }

/-- A header declaring a 25 MB png (scenario D). -/
def hdrBig : Header :=
  { contentType := some "image/png", contentLength := some (25 * 1024 * 1024) }

/-- A png header without a `Content-Length`. -/
def hdrNoLen : Header := { contentType := some "image/png", contentLength := none }

/-- A fragment of the `mimetypes.guess_extension` table. -/
def guessStd : Option String → Option String := fun mime_type =>
  if mime_type = some "image/png" then some ".png"
  else if mime_type = some "application/pdf" then some ".pdf"
  else none

/-- A benign environment: every probe yields a small png, the encoder maps
every string to no tokens, the completion client answers `"meow"`. -/
def baseEnv : Env where
  enc := fun _ => []
  head_req := fun _ => some hdrPng
  get_req := fun _ => none
  guess_extension := guessStd
  file_size_on_disk := fun _ => 0
  download_frames := fun _ => .ok ["ZnJhbWU="]
  completion := fun _ => .ok "meow"
  system_formatted := "sys"

/-- `baseEnv` with a failing completion client. -/
def envErr : Env := { baseEnv with completion := fun _ => .error "boom" }

/-- `baseEnv` with an encoder that prices every message at 513 tokens. -/
def envTooLong : Env := { baseEnv with enc := fun _ => List.replicate 513 0 }

/-- `baseEnv` whose probes yield a pdf header. -/
def envPdf : Env := { baseEnv with head_req := fun _ => some hdrPdf }

/-- `baseEnv` whose probes yield a 25 MB png header. -/
def envBig : Env := { baseEnv with head_req := fun _ => some hdrBig }

/-- `baseEnv` whose probes yield a header without `Content-Length`. -/
def envNoLen : Env := { baseEnv with head_req := fun _ => some hdrNoLen }

/-- `baseEnv` whose HEAD and GET probes both fail. -/
def envDown : Env := { baseEnv with head_req := fun _ => none }

/-! ## Helper lemmas -/

/-- Reversing the fold of `database_read` turns its newest-first
assistant-then-user pairs into chronological user-then-assistant pairs. -/
theorem db_foldl_reverse (r : List Turn) (acc : List PyMsg) :
    (r.foldl (fun messages t => messages ++
      [⟨"assistant", .text t.assistant_message⟩, ⟨"user", .text t.user_message⟩]) acc).reverse
    = r.reverse.flatMap pair_messages ++ acc.reverse := by
  induction r generalizing acc with
  | nil => simp
  | cons t ts ih =>
    simp only [List.foldl_cons, ih, List.reverse_cons, List.flatMap_append,
      List.reverse_append]
    simp [pair_messages]

/-- `database_read` in closed form: the last (up to) 10 stored turns, in
insertion order, each rendered as its user line followed by its assistant
line. -/
theorem database_read_eq (shared_chat : Bool) (stored : List Turn) :
    database_read shared_chat stored
      = (stored.drop (stored.length - 10)).flatMap pair_messages := by
  unfold database_read get_chats_for_user get_shared_chats_for_server
  cases shared_chat <;>
    simp only [if_true, if_false, Bool.false_eq_true, db_foldl_reverse, List.reverse_nil,
      List.append_nil, List.take_reverse, List.reverse_reverse]

/-- The role sequence of rendered pairs: `user`, `assistant`, repeated. -/
theorem flatMap_pair_roles (ts : List Turn) :
    (ts.flatMap pair_messages).map PyMsg.role
      = (List.replicate ts.length ["user", "assistant"]).flatten := by
  induction ts with
  | nil => rfl
  | cons t ts ih => simp [pair_messages, ih, List.replicate_succ]

/-- Each rendered pair contributes two messages. -/
theorem flatMap_pair_length (ts : List Turn) :
    (ts.flatMap pair_messages).length = 2 * ts.length := by
  induction ts with
  | nil => rfl
  | cons t ts ih => simp [pair_messages, ih]; omega

/-- A text of `n` letters `a` contains no `". "` separator, so Python's
split yields the whole text as the single sentence. -/
theorem pySplit_replicate_a (n : Nat) :
    pySplitDotSpace (List.replicate n 'a') = [List.replicate n 'a'] := by
  induction n with
  | zero => rfl
  | succ m ih =>
    rw [List.replicate_succ, pySplitDotSpace, ih]
    intro rest h
    exact absurd h (by decide)

/-- A failed probe (HEAD and streamed GET both) surfaces as the source
`ValueError` naming the URL. -/
theorem get_image_probe_failure (env : Env) (url : String)
    (hh : env.head_req url = none) (hg : env.get_req url = none) :
    get_image_as_base64 env url = .error (.valueError (could_not_access_message url)) := by
  simp [get_image_as_base64, URLHandler_init, hh, hg]

/-- The attachment loop surfaces the error of the first failing URL after a
prefix of successfully resolved ones. -/
theorem resolve_images_append_error (env : Env) (pre : List String) (url : String)
    (rest : List String) (e : PyExc)
    (hpre : ∀ u ∈ pre, ∃ imgs, get_image_as_base64 env (strip_embed_disabler u) = .ok imgs)
    (herr : get_image_as_base64 env (strip_embed_disabler url) = .error e) :
    resolve_images env (pre ++ url :: rest) = .error e := by
  induction pre with
  | nil => simp [resolve_images, herr]
  | cons u us ih =>
    obtain ⟨imgs, hok⟩ := hpre u (by simp)
    have hrest := ih (fun v hv => hpre v (by simp [hv]))
    simp [resolve_images, hok, hrest]

/-- Every completion request `initiateChat` issues is the system message,
the stored history as `database_read` returns it, and the new user turn
last. -/
theorem initiateChat_request_shape (env : Env) (k : Bool) (um pm : String)
    (uid sid : Nat) (sh : Bool) (st : List Turn) :
    ∀ req ∈ (initiateChat env k um pm uid sid sh st).apiRequests, ∃ c,
      req = ⟨"system", .text env.system_formatted⟩ ::
        (database_read sh st ++ [⟨"user", c⟩]) := by
  simp only [initiateChat]
  split
  rotate_left
  · simp
  split
  rotate_left
  · simp
  split
  rotate_left
  · simp
  split
  · simp
  · simp
  · simp
  · split
    all_goals
      dsimp only
      intro req hreq
      rw [List.mem_singleton] at hreq
      exact ⟨_, hreq⟩

/-- On the acceptance path with no URLs in the message, exactly one request
is issued, with the plain-text user turn last. -/
theorem initiateChat_no_urls_request (env : Env) (um pm : String) (uid sid : Nat)
    (sh : Bool) (st : List Turn) (hum : um ≠ "")
    (htok : ¬ calculate_tokens env.enc um system_message > 1024)
    (hurls : get_urls_in_message pm = []) :
    (initiateChat env true um pm uid sid sh st).apiRequests
      = [⟨"system", .text env.system_formatted⟩ ::
          (database_read sh st ++ [⟨"user", .text pm⟩])] := by
  simp only [initiateChat, if_pos rfl, if_pos hum, if_pos htok, hurls]
  simp only [ne_eq, not_true_eq_false, if_false, reduceIte]
  split <;> rfl

/-! ## Claims -/

/-- C1: for every chat invocation, a conversation turn is inserted into the
chat table only when the upstream completion call returned successfully (and
then it is exactly the new turn); when the completion call raises an
upstream API error, no row is inserted and the caller receives the failure
reply. -/
theorem chat_turn_persisted_only_after_success (env : Env) (k : Bool) (um pm : String)
    (uid sid : Nat) (sh : Bool) (st : List Turn) :
    ((initiateChat env k um pm uid sid sh st).dbAdds ≠ [] →
      ∃ req resp, (initiateChat env k um pm uid sid sh st).apiRequests = [req] ∧
        env.completion req = .ok resp ∧
        (initiateChat env k um pm uid sid sh st).dbAdds = [⟨uid, sid, pm, resp, sh⟩]) ∧
    (∀ req e, (initiateChat env k um pm uid sid sh st).apiRequests = [req] →
      env.completion req = .error e →
      (initiateChat env k um pm uid sid sh st).dbAdds = [] ∧
      (initiateChat env k um pm uid sid sh st).replies = [openai_error_reply e]) := by
  simp only [initiateChat]
  split
  rotate_left
  · simp
  split
  rotate_left
  · simp
  split
  rotate_left
  · simp
  split
  · simp
  · simp
  · simp
  · split
    · rename_i heq
      constructor
      · intro _
        exact ⟨_, _, rfl, heq, rfl⟩
      · intro req e hreq herr
        simp only [List.cons.injEq, and_true] at hreq
        rw [← hreq] at herr
        rw [heq] at herr
        cases herr
    · rename_i e heq
      constructor
      · intro h
        simp at h
      · intro req e2 hreq herr
        simp only [List.cons.injEq, and_true] at hreq
        subst hreq
        rw [heq] at herr
        cases herr
        simp

/-- C1 witness: with a completion client that raises, no row is inserted and
the failure reply is sent. -/
theorem chat_turn_persisted_only_after_success_wit :
    (initiateChat envErr true "hi" "hi" 1 2 false []).dbAdds = [] ∧
    (initiateChat envErr true "hi" "hi" 1 2 false []).replies
      = [openai_error_reply "boom"] :=
  (chat_turn_persisted_only_after_success envErr true "hi" "hi" 1 2 false []).2
    [⟨"system", .text "sys"⟩, ⟨"user", .text "hi"⟩] "boom" (by decide) rfl

/-- C2: when the token estimate of the new message plus the system template
exceeds 1024, the turn is rejected with the too-long reply carrying the
measured count; no completion request is issued, nothing is inserted,
nothing escapes. -/
theorem over_budget_rejected_without_side_effects (env : Env) (um pm : String)
    (uid sid : Nat) (sh : Bool) (st : List Turn) (hum : um ≠ "")
    (htok : calculate_tokens env.enc um system_message > 1024) :
    initiateChat env true um pm uid sid sh st
      = { replies := [too_long_reply (calculate_tokens env.enc um system_message)] } := by
  unfold initiateChat
  rw [if_pos rfl, if_pos hum, if_neg (by simpa using htok)]

/-- C2 witness: an encoder pricing each message at 513 tokens prices the
pair at 1026, and the invocation only replies that the message is too
long. -/
theorem over_budget_rejected_without_side_effects_wit :
    initiateChat envTooLong true "hello" "hello" 1 2 false []
      = { replies := [too_long_reply 1026] } := by
  have h := over_budget_rejected_without_side_effects envTooLong "hello" "hello" 1 2 false []
    (by decide) (by simp [calculate_tokens, envTooLong, baseEnv])
  simpa [calculate_tokens, envTooLong, baseEnv] using h

/-- C3 (code bug): on a 2500-character response with no sentence-ending
punctuation, `split_message_by_sentence` returns an empty first chunk and a
second chunk of 2502 characters — over the 2000-character ceiling its
docstring and the spec promise — and the concatenation of the chunks
appends `". "` instead of reproducing the input. -/
theorem split_message_over_limit_at_2500 :
    split_message_by_sentence (List.replicate 2500 'a')
        = [[], List.replicate 2500 'a' ++ ['.', ' ']] ∧
    (List.replicate 2500 'a' ++ ['.', ' ']).length = 2502 ∧
    (split_message_by_sentence (List.replicate 2500 'a')).flatten
        = List.replicate 2500 'a' ++ ['.', ' '] ∧
    (split_message_by_sentence (List.replicate 2500 'a')).flatten
        ≠ List.replicate 2500 'a' := by
  have hsplit : split_message_by_sentence (List.replicate 2500 'a')
      = [[], List.replicate 2500 'a' ++ ['.', ' ']] := by
    unfold split_message_by_sentence
    rw [pySplit_replicate_a]
    simp [smbs_step]
  have hlen : (List.replicate 2500 'a' ++ ['.', ' ']).length = 2502 := by
    rw [List.length_append, List.length_replicate]
    rfl
  have hflat : ([[], List.replicate 2500 'a' ++ ['.', ' ']] :
      List (List Char)).flatten = List.replicate 2500 'a' ++ ['.', ' '] := by
    rw [List.flatten_cons, List.flatten_cons, List.flatten_nil,
      List.nil_append, List.append_nil]
  refine ⟨hsplit, hlen, by rw [hsplit, hflat], ?_⟩
  rw [hsplit, hflat]
  intro h
  have hl := congrArg List.length h
  rw [List.length_append, List.length_replicate] at hl
  simp at hl

/-- C4 counterexample: for a single stored turn, the history read returns
the user line first, not the assistant line first as the claim states. -/
theorem database_read_pair_order_cex :
    database_read false [⟨"u1", "a1"⟩]
        = [⟨"user", .text "u1"⟩, ⟨"assistant", .text "a1"⟩] ∧
    database_read false [⟨"u1", "a1"⟩]
        ≠ [⟨"assistant", .text "a1"⟩, ⟨"user", .text "u1"⟩] := by
  decide

/-- C4 (amended): the history read returns the stored turns in
chronological order (oldest first) as role-tagged pairs in which the USER
line precedes the assistant line within each historical pair. -/
theorem database_read_chronological_user_first (shared_chat : Bool) (stored : List Turn) :
    database_read shared_chat stored
      = (stored.drop (stored.length - 10)).flatMap pair_messages :=
  database_read_eq shared_chat stored

/-- C6: the history queries return at most 10 turns and the history read at
most 20 role-tagged messages, however many turns are stored. -/
theorem history_read_bounded (shared_chat : Bool) (stored : List Turn) :
    (get_chats_for_user stored 10).length ≤ 10 ∧
    (get_shared_chats_for_server stored 10).length ≤ 10 ∧
    (database_read shared_chat stored).length ≤ 20 := by
  refine ⟨by simp [get_chats_for_user], by simp [get_shared_chats_for_server], ?_⟩
  rw [database_read_eq, flatMap_pair_length]
  have : (stored.drop (stored.length - 10)).length ≤ 10 := by simp; omega
  omega

/-- C9: the history read returns an even number of messages whose roles
strictly alternate, each pair beginning with the user entry followed by the
assistant entry. -/
theorem history_messages_alternate_user_first (shared_chat : Bool) (stored : List Turn) :
    ∃ k, (database_read shared_chat stored).map PyMsg.role
          = (List.replicate k ["user", "assistant"]).flatten ∧
        (database_read shared_chat stored).length = 2 * k := by
  refine ⟨(stored.drop (stored.length - 10)).length, ?_, ?_⟩
  · rw [database_read_eq, flatMap_pair_roles]
  · rw [database_read_eq, flatMap_pair_length]

/-- `optNotInFormats` is false exactly on declared types that resolve to a
supported extension. -/
theorem optNotInFormats_false_iff (ft? : Option String) :
    optNotInFormats ft? = false ↔ ∃ ft, ft? = some ft ∧ ft ∈ SUPPORTED_IMAGE_FORMATS := by
  have hiff : ∀ ft : String,
      (SUPPORTED_IMAGE_FORMATS.contains ft = true) ↔ ft ∈ SUPPORTED_IMAGE_FORMATS :=
    fun _ => List.elem_iff
  cases ft? with
  | none => simp [optNotInFormats]
  | some ft =>
    simp only [optNotInFormats, Bool.not_eq_false', Option.some.injEq]
    rw [hiff ft]
    constructor
    · intro h
      exact ⟨ft, rfl, h⟩
    · rintro ⟨ft2, heq, hmem⟩
      cases heq
      exact hmem

/-- A declared size of 25 MB is over the 20 MB ceiling. -/
theorem content_size_over_25MB (fs : String → Nat) :
    content_size_is_over_limit fs (.int (25 * 1024 * 1024)) OPENAI_IMAGE_SIZE_LIMIT_MB "MB"
      = .ok true := by
  have hu : UNITS (pyUpper "MB") = some (1024 * 1024) := by decide
  simp only [content_size_is_over_limit, hu]
  rfl

/-- A `None` size with a valid unit reaches the final `return` with
`file_size` unassigned. -/
theorem content_size_none_unbound (fs : String → Nat) (limit : Nat) (unit : String)
    (mult : Nat) (hu : UNITS (pyUpper unit) = some mult) :
    content_size_is_over_limit fs .pyNone limit unit = .error .unboundLocal := by
  simp only [content_size_is_over_limit, hu]

/-- C5: `convert_to_base64` checks the declared content type against the
allow-list and the declared size against the 20 MB ceiling before the body
download begins: a download is initiated only when both checks passed; a
URL declaring `application/pdf` is rejected as unsupported, and a URL
declaring 25 MB is rejected as too large, each as an error raised instead
of a download. -/
theorem attachment_checks_precede_download (env : Env) (url : String) :
    (∀ d, convert_to_base64 env url = .ok d →
      ∃ h ft, URLHandler_init env url = .ok h ∧
        get_mime_type env (header_mime_type h) = some ft ∧
        ft ∈ SUPPORTED_IMAGE_FORMATS ∧
        content_size_is_over_limit env.file_size_on_disk (sizeArgOfOpt (header_file_size h))
          OPENAI_IMAGE_SIZE_LIMIT_MB "MB" = .ok false ∧
        d = ⟨url, OPENAI_IMAGE_SIZE_LIMIT_MB, "MB"⟩) ∧
    (∀ h, URLHandler_init env url = .ok h →
      header_mime_type h = some "application/pdf" →
      env.guess_extension (some "application/pdf") = some ".pdf" →
      convert_to_base64 env url
        = .error (.unsupportedFormat (unsupported_format_message url (some ".pdf")))) ∧
    (∀ h ft, URLHandler_init env url = .ok h →
      get_mime_type env (header_mime_type h) = some ft →
      ft ∈ SUPPORTED_IMAGE_FORMATS →
      header_file_size h = some (25 * 1024 * 1024) →
      convert_to_base64 env url
        = .error (.fileSizeLimit (file_size_limit_message url))) := by
  refine ⟨?_, ?_, ?_⟩
  · intro d hd
    unfold convert_to_base64 at hd
    split at hd
    · cases hd
    · rename_i h hinit
      simp only [] at hd
      split at hd
      · cases hd
      · rename_i hfmt
        rw [Bool.not_eq_true] at hfmt
        obtain ⟨ft, hft, hmem⟩ := (optNotInFormats_false_iff _).mp hfmt
        split at hd
        · cases hd
        · cases hd
        · rename_i hsize
          cases hd
          exact ⟨h, ft, hinit, hft, hmem, hsize, rfl⟩
  · intro h hinit hmime hguess
    have hft : get_mime_type env (header_mime_type h) = some ".pdf" := by
      rw [hmime, get_mime_type, hguess]
    simp only [convert_to_base64, hinit, hft]
    rfl
  · intro h ft hinit hft hmem hsize
    have hfmt : optNotInFormats (get_mime_type env (header_mime_type h)) = false :=
      (optNotInFormats_false_iff _).mpr ⟨ft, hft, hmem⟩
    have hcs2 : content_size_is_over_limit env.file_size_on_disk
        (sizeArgOfOpt (header_file_size h)) OPENAI_IMAGE_SIZE_LIMIT_MB "MB" = .ok true := by
      rw [hsize]
      exact content_size_over_25MB _
    simp only [convert_to_base64, hinit, hfmt, Bool.false_eq_true, if_false, hcs2]

/-- C5 witness: the pdf header of scenario C is rejected as unsupported and
the 25 MB header of scenario D as too large, both without a download. -/
theorem attachment_checks_precede_download_wit :
    convert_to_base64 envPdf "http://a.co/f"
        = .error (.unsupportedFormat (unsupported_format_message "http://a.co/f" (some ".pdf"))) ∧
    convert_to_base64 envBig "http://a.co/g"
        = .error (.fileSizeLimit (file_size_limit_message "http://a.co/g")) := by
  constructor
  · exact (attachment_checks_precede_download envPdf "http://a.co/f").2.1 hdrPdf rfl
      (by decide) (by decide)
  · exact (attachment_checks_precede_download envBig "http://a.co/g").2.2 hdrBig ".png" rfl
      (by decide) (by decide) rfl

/-- C7: every completion request is ordered system message first, then the
historical pairs oldest to newest, then the new user turn last; on the
acceptance path without attachments exactly that request is issued, and
with an empty history it holds exactly 2 messages (system, user). -/
theorem payload_role_ordering (env : Env) (um pm : String) (uid sid : Nat)
    (sh : Bool) (st : List Turn) (hum : um ≠ "")
    (htok : ¬ calculate_tokens env.enc um system_message > 1024) :
    (∀ req ∈ (initiateChat env true um pm uid sid sh st).apiRequests, ∃ c,
        req = ⟨"system", .text env.system_formatted⟩ ::
          ((st.drop (st.length - 10)).flatMap pair_messages ++ [⟨"user", c⟩])) ∧
    (get_urls_in_message pm = [] →
      (initiateChat env true um pm uid sid sh st).apiRequests
        = [⟨"system", .text env.system_formatted⟩ ::
            ((st.drop (st.length - 10)).flatMap pair_messages ++ [⟨"user", .text pm⟩])]) ∧
    (get_urls_in_message pm = [] → st = [] →
      (initiateChat env true um pm uid sid sh st).apiRequests
        = [[⟨"system", .text env.system_formatted⟩, ⟨"user", .text pm⟩]]) := by
  refine ⟨?_, ?_, ?_⟩
  · intro req hreq
    obtain ⟨c, hc⟩ := initiateChat_request_shape env true um pm uid sid sh st req hreq
    exact ⟨c, by rw [hc, database_read_eq]⟩
  · intro hurls
    rw [initiateChat_no_urls_request env um pm uid sid sh st hum htok hurls,
      database_read_eq]
  · intro hurls hst
    subst hst
    rw [initiateChat_no_urls_request env um pm uid sid sh [] hum htok hurls,
      database_read_eq]
    rfl

/-- C7 witness: scenario A, the message `Hello` against an empty history
yields the two-message payload (system, user). -/
theorem payload_role_ordering_wit :
    (initiateChat baseEnv true "Hello" "Hello" 1 2 false []).apiRequests
      = [[⟨"system", .text "sys"⟩, ⟨"user", .text "Hello"⟩]] :=
  (payload_role_ordering baseEnv "Hello" "Hello" 1 2 false [] (by decide)
    (by decide)).2.2 (by decide) rfl

/-- C8 counterexample: a message holding one URL whose HEAD and GET probes
both fail.  The turn is aborted before any completion call, but no reply is
sent to the caller — refuting the claim that the caller receives an error
message naming the failing URL; the `ValueError` (which does name the URL)
escapes the handler, whose `except` clause catches only the format and size
errors. -/
theorem network_failure_silent_cex :
    (initiateChat envDown true "look http://a.co/x" "look http://a.co/x" 1 2 false []).replies
        = [] ∧
    (initiateChat envDown true "look http://a.co/x" "look http://a.co/x" 1 2 false []).apiRequests
        = [] ∧
    (initiateChat envDown true "look http://a.co/x" "look http://a.co/x" 1 2 false []).raised
        = some (.valueError (could_not_access_message "http://a.co/x")) := by
  decide

/-- C8 (amended): when the first failing URL of the message fails both the
HEAD probe and the streamed-GET fallback, the chat turn is aborted before
any completion call and nothing is persisted, but the caller receives no
reply: the `ValueError` naming the URL escapes the handler uncaught. -/
theorem network_failure_aborts_without_reply (env : Env) (um pm : String) (uid sid : Nat)
    (sh : Bool) (st : List Turn) (pre : List String) (url : String) (rest : List String)
    (hum : um ≠ "") (htok : ¬ calculate_tokens env.enc um system_message > 1024)
    (hurls : get_urls_in_message pm = pre ++ url :: rest)
    (hpre : ∀ u ∈ pre, ∃ imgs, get_image_as_base64 env (strip_embed_disabler u) = .ok imgs)
    (hh : env.head_req (strip_embed_disabler url) = none)
    (hg : env.get_req (strip_embed_disabler url) = none) :
    initiateChat env true um pm uid sid sh st
      = { raised := some (.valueError (could_not_access_message (strip_embed_disabler url))) } := by
  have herr := get_image_probe_failure env (strip_embed_disabler url) hh hg
  have hres := resolve_images_append_error env pre url rest _ hpre herr
  have hne : pre ++ url :: rest ≠ [] := by simp
  simp only [initiateChat, if_pos rfl, if_pos hum, if_pos htok, hurls]
  rw [if_pos hne, hres]
  rfl

/-- C8 witness: the amended behaviour at the concrete failing probe. -/
theorem network_failure_aborts_without_reply_wit :
    initiateChat envDown true "look http://a.co/x" "look http://a.co/x" 1 2 false []
      = { raised := some (.valueError
            (could_not_access_message (strip_embed_disabler "http://a.co/x"))) } :=
  network_failure_aborts_without_reply envDown "look http://a.co/x" "look http://a.co/x"
    1 2 false [] [] "http://a.co/x" [] (by decide) (by decide) (by decide) (by simp)
    rfl rfl

/-- C10: `content_size_is_over_limit` returns a boolean only for the
`str`/`bytes`/`int` arms; the `None` that `header_file_size` yields for a
response without `Content-Length` reaches the final `return` with
`file_size` unassigned and raises `UnboundLocalError`, so
`convert_to_base64` on such a URL never reaches the download step. -/
theorem content_size_unbound_on_none :
    (∀ (fs : String → Nat) (limit : Nat) (unit : String) (mult : Nat),
      UNITS (pyUpper unit) = some mult →
      content_size_is_over_limit fs .pyNone limit unit = .error .unboundLocal) ∧
    (∀ (fs : String → Nat) (arg : SizeArg) (limit : Nat) (unit : String) (b : Bool),
      content_size_is_over_limit fs arg limit unit = .ok b → arg ≠ .pyNone) ∧
    (∀ h : Header, h.contentLength = none → header_file_size h = none) ∧
    (∀ (env : Env) (url : String) (hd : Header) (ft : String),
      URLHandler_init env url = .ok hd → header_file_size hd = none →
      get_mime_type env (header_mime_type hd) = some ft → ft ∈ SUPPORTED_IMAGE_FORMATS →
      convert_to_base64 env url = .error .unboundLocal) ∧
    (∀ (env : Env) (url : String) (hd : Header),
      URLHandler_init env url = .ok hd → header_file_size hd = none →
      ∀ d, convert_to_base64 env url ≠ .ok d) := by
  have hcs : ∀ (env : Env) (hd : Header), header_file_size hd = none →
      content_size_is_over_limit env.file_size_on_disk (sizeArgOfOpt (header_file_size hd))
        OPENAI_IMAGE_SIZE_LIMIT_MB "MB" = .error .unboundLocal := by
    intro env hd hnone
    rw [hnone]
    exact content_size_none_unbound _ _ _ (1024 * 1024) (by decide)
  refine ⟨content_size_none_unbound, ?_, ?_, ?_, ?_⟩
  · intro fs arg limit unit b hb
    simp only [content_size_is_over_limit] at hb
    split at hb
    · cases hb
    · cases arg <;> simp_all
  · intro h hnone
    rw [header_file_size, hnone]
  · intro env url hd ft hinit hnone hft hmem
    have hfmt : optNotInFormats (get_mime_type env (header_mime_type hd)) = false :=
      (optNotInFormats_false_iff _).mpr ⟨ft, hft, hmem⟩
    simp only [convert_to_base64, hinit, hfmt, Bool.false_eq_true, if_false,
      hcs env hd hnone]
  · intro env url hd hinit hnone d hd2
    simp only [convert_to_base64, hinit] at hd2
    split at hd2
    · cases hd2
    · rw [hcs env hd hnone] at hd2
      cases hd2

/-- C10 witness: the `None` size under a valid unit raises the
unbound-local error, and a URL whose response lacks `Content-Length` makes
`convert_to_base64` fail before the download step. -/
theorem content_size_unbound_on_none_wit :
    content_size_is_over_limit (fun _ => 0) .pyNone 20 "MB" = .error .unboundLocal ∧
    convert_to_base64 envNoLen "http://a.co/h" = .error .unboundLocal := by
  constructor
  · exact content_size_unbound_on_none.1 (fun _ => 0) 20 "MB" (1024 * 1024) (by decide)
  · exact content_size_unbound_on_none.2.2.2.1 envNoLen "http://a.co/h" hdrNoLen ".png"
      rfl rfl (by decide) (by decide)
